import Mathlib

/-! A model of `executor/executor_cheribsd.h`.

The file is the CheriBSD port of the fuzzer's target-side executor: it sets up the
shared input region (`os_init`), dispatches one call (`execute_syscall`), drives the
kcov coverage buffer (`cover_open`, `cover_mmap`, `cover_enable`, `cover_reset`,
`cover_collect`) and supplies three address classifiers.

The C code is stateful and talks to the operating system.  It is embedded by explicit
state passing:

* `State` holds the static `syz_data_ptr`, the list of primitives issued so far, the
  live memory mappings and the byte contents of memory;
* every operating-system or libc primitive the code calls is recorded in the trace,
  and the value it returns is read from an environment `Env`, so that every theorem
  holds for every behaviour of the kernel (success or failure);
* a function that can end the process returns an `Outcome`.
-/

set_option linter.unusedVariables false

namespace Cheribsd

/-! ## Pointers -/

/-- Capability-bounded pointer: the address it holds and the length of its bounds,
the two things the source queries with `cheri_getaddress` and `cheri_getlen`. -/
structure Cap where
  addr : Nat
  len : Nat
deriving DecidableEq, Repr

/-- The null pointer.  C pointer comparison (`p != NULL`, `p == MAP_FAILED`) compares
addresses, so the tests below are written on `addr`. -/
def NULL : Cap := ⟨0, 0⟩

/-- The value `(void*)-1` of `<sys/mman.h>`, returned by a failed `mmap`. -/
def MAP_FAILED : Cap := ⟨2 ^ 64 - 1, 0⟩

/-- Address query `cheri_getaddress(p)`. -/
def cheri_getaddress (p : Cap) : Nat := p.addr

/-- Bounds-length query `cheri_getlen(p)`. -/
def cheri_getlen (p : Cap) : Nat := p.len

/-- Pointer arithmetic `p + n` on a `char*`: the address moves, the bounds stay. -/
def Cap.add (p : Cap) (n : Nat) : Cap := ⟨p.addr + n, p.len⟩

/-! ## Constants of the system headers (FreeBSD values) -/

def PROT_READ : Nat := 1
def PROT_WRITE : Nat := 2
def PROT_EXEC : Nat := 4
def MAP_SHARED : Nat := 1
def MAP_PRIVATE : Nat := 2
def MAP_FIXED : Nat := 16
def MAP_ANON : Nat := 4096
def O_RDWR : Nat := 2
def RLIMIT_NOFILE : Nat := 8
def SIGCHLD : Nat := 20
def KCOV_MODE_TRACE_PC : Nat := 0
def KCOV_MODE_TRACE_CMP : Nat := 1

/-- Size of one kcov buffer entry, `sizeof(uint64_t)` in `<sys/kcov.h>`. -/
def KCOV_ENTRY_SIZE : Nat := 8

/-- The two kcov control requests the file issues. -/
inductive IoctlReq where
  | KIOSETBUFSIZE
  | KIOENABLE
deriving DecidableEq, Repr

/-- Constants the file uses and that are declared elsewhere in the executor:
`kMaxFd`, `kCoverSize`, and the width in bits of the field `cover_t::size`. -/
structure Params where
  kMaxFd : Nat
  kCoverSize : Nat
  size_bits : Nat
deriving DecidableEq, Repr

/-! ## The environment -/

/-- One primitive invoked by the code, with the arguments it was given.  `call` is a
native entry point reached through the function pointer `c->call`, `syscall` is the
trap `__syscall`. -/
inductive Prim where
  | mmap (addr len prot flags : Nat) (fd : Int) (off : Nat)
  | munmap (addr len : Nat)
  | setrlimit (resource rlim_cur rlim_max : Nat)
  | sigaction (signum : Nat)
  | openFile (path : String) (oflags : Nat)
  | dup2 (oldfd newfd : Int)
  | close (fd : Int)
  | ioctl (fd : Int) (request : IoctlReq) (arg : Nat)
  | call (fn : Nat) (args : List Int)
  | syscall (nr : Int) (args : List Int)
deriving DecidableEq, Repr

/-- What the kernel and the callees answer: the value returned by a primitive, given
the primitives issued before it.  `ptr_result` is used for `mmap`, `int_result` for
every other primitive. -/
structure Env where
  ptr_result : List Prim → Prim → Cap
  int_result : List Prim → Prim → Int

/-- A live memory mapping. -/
structure Mapping where
  addr : Nat
  len : Nat
  prot : Nat
  flags : Nat
  fd : Int
deriving DecidableEq, Repr

/-- Process state: the static `syz_data_ptr`, the primitives issued so far (oldest
first), the live mappings, and the contents of memory (byte at each address). -/
structure State where
  syz_data_ptr : Cap
  trace : List Prim
  maps : List Mapping
  mem : Nat → Nat

/-- What is left of mapping `m` once the range `[a, a + l)` is unmapped: the part
below `a` and the part from `a + l` on. -/
def Mapping.carve (a l : Nat) (m : Mapping) : List Mapping :=
  (if m.addr < a then [{ m with len := min m.len (a - m.addr) }] else []) ++
  (if a + l < m.addr + m.len then
    [{ m with addr := max m.addr (a + l), len := m.addr + m.len - max m.addr (a + l) }]
   else [])

/-- The mappings left once the range `[a, a + l)` is unmapped. -/
def unmapRange (a l : Nat) (ms : List Mapping) : List Mapping :=
  ms.flatMap (Mapping.carve a l)

/-- A primitive that returns an `int` and has no effect on mappings or memory. -/
def sys_int (E : Env) (c : Prim) (s : State) : Int × State :=
  (E.int_result s.trace c, { s with trace := s.trace ++ [c] })

/-- System call `munmap(p, len)`: when the kernel answers 0 the range is unmapped. -/
def munmap (E : Env) (p : Cap) (len : Nat) (s : State) : Int × State :=
  let r := E.int_result s.trace (Prim.munmap p.addr len)
  (r, { s with
    trace := s.trace ++ [Prim.munmap p.addr len],
    maps := if r = 0 then unmapRange p.addr len s.maps else s.maps })

/-- System call `mmap(addr, len, prot, flags, fd, off)`.  A failed call changes
nothing.  A successful one adds the mapping at the returned address; with
`MAP_FIXED` it replaces what was mapped in that range, with `MAP_ANON` the new range
reads as zero. -/
def mmap (E : Env) (addr len prot flags : Nat) (fd : Int) (off : Nat) (s : State) :
    Cap × State :=
  let r := E.ptr_result s.trace (Prim.mmap addr len prot flags fd off)
  if r.addr = MAP_FAILED.addr then
    (r, { s with trace := s.trace ++ [Prim.mmap addr len prot flags fd off] })
  else
    (r, { s with
      trace := s.trace ++ [Prim.mmap addr len prot flags fd off],
      maps := ⟨r.addr, len, prot, flags, fd⟩ ::
        (if flags &&& MAP_FIXED ≠ 0 then unmapRange r.addr len s.maps else s.maps),
      mem := if flags &&& MAP_ANON ≠ 0 then
          fun x => if r.addr ≤ x ∧ x < r.addr + len then 0 else s.mem x
        else s.mem })

/-- Modelled from the spec: `fail`, `failmsg` and `exitf` are declared elsewhere in
the executor; the spec calls their effect fatal ("process cannot continue - the agent
aborts with a diagnostic").  A run therefore either returns normally (`ok`) or ends
the process (`fatal`) with the diagnostic and the state reached at that point. -/
inductive Outcome (σ : Type) where
  | ok (s : σ)
  | fatal (msg : String) (s : σ)

/-- The state an outcome carries. -/
def Outcome.state {σ : Type} : Outcome σ → σ
  | .ok s => s
  | .fatal _ s => s

/-- True when the run returned normally. -/
def Outcome.returns {σ : Type} : Outcome σ → Bool
  | .ok _ => true
  | .fatal _ _ => false

/-! ## Memory access -/

/-- Store of a `uint64` at address `a` (little-endian, as on the CheriBSD targets). -/
def store64 (mem : Nat → Nat) (a v : Nat) : Nat → Nat :=
  fun x => if a ≤ x ∧ x < a + 8 then (v / 256 ^ (x - a)) % 256 else mem x

/-- Load of a `uint64` from address `a` (little-endian). -/
def load64 (mem : Nat → Nat) (a : Nat) : Nat :=
  mem a % 256 + (mem (a + 1) % 256) * 256 ^ 1 + (mem (a + 2) % 256) * 256 ^ 2 +
  (mem (a + 3) % 256) * 256 ^ 3 + (mem (a + 4) % 256) * 256 ^ 4 +
  (mem (a + 5) % 256) * 256 ^ 5 + (mem (a + 6) % 256) * 256 ^ 6 +
  (mem (a + 7) % 256) * 256 ^ 7

/-! ## The functions of `executor_cheribsd.h` -/

/-- Function `os_init(argc, argv, data, data_size)`; `argc` and `argv` are not
used by the body.  No return value of a primitive is inspected. -/
def os_init (E : Env) (P : Params) (data data_size : Nat) (s : State) : Outcome State :=
  let prot := PROT_READ ||| PROT_WRITE ||| PROT_EXEC
  let flags := MAP_PRIVATE ||| MAP_ANON ||| MAP_FIXED
  let s1 : State :=
    if s.syz_data_ptr.addr ≠ NULL.addr then
      if cheri_getlen s.syz_data_ptr ≠ data_size ∨
          cheri_getaddress s.syz_data_ptr ≠ data then
        let s2 := (munmap E s.syz_data_ptr (cheri_getlen s.syz_data_ptr) s).2
        let r := mmap E data data_size prot flags (-1) 0 s2
        { r.2 with syz_data_ptr := r.1 }
      else s
    else
      let r := mmap E data data_size prot flags (-1) 0 s
      { r.2 with syz_data_ptr := r.1 }
  let s3 := (sys_int E (Prim.setrlimit RLIMIT_NOFILE P.kMaxFd P.kMaxFd) s1).2
  let s4 := (sys_int E (Prim.sigaction SIGCHLD) s3).2
  Outcome.ok s4

/-- Call descriptor, as far as `execute_syscall` reads it: the function pointer
`call` (0 is the null pointer) and the call number `sys_nr`. -/
structure call_t where
  call : Nat
  sys_nr : Int
deriving DecidableEq, Repr

/-- Function `execute_syscall(c, a)`; `a` is the argument array, read at indices 0..8. -/
def execute_syscall (E : Env) (c : call_t) (a : Nat → Int) (s : State) : Int × State :=
  if c.call ≠ 0 then
    sys_int E (Prim.call c.call [a 0, a 1, a 2, a 3, a 4, a 5, a 6, a 7, a 8]) s
  else
    sys_int E (Prim.syscall c.sys_nr [a 0, a 1, a 2, a 3, a 4, a 5, a 6, a 7, a 8]) s

/-- Coverage buffer record, with the fields this file reads or writes. -/
structure cover_t where
  fd : Int
  size : Nat
  mmap_alloc_size : Nat
  data : Cap
  data_end : Cap
  data_offset : Nat
  pc_offset : Nat
deriving DecidableEq, Repr

/-- Function `cover_open(cov, extra)`. -/
def cover_open (E : Env) (P : Params) (cov : cover_t) (extra : Bool) (s : State) :
    Outcome (cover_t × State) :=
  let r1 := sys_int E (Prim.openFile "/dev/kcov" O_RDWR) s
  if r1.1 = -1 then
    Outcome.fatal "open of /dev/kcov failed" (cov, r1.2)
  else
    let r2 := sys_int E (Prim.dup2 r1.1 cov.fd) r1.2
    if r2.1 < 0 then
      Outcome.fatal "failed to dup cover fd" (cov, r2.2)
    else
      let s3 := (sys_int E (Prim.close r1.1) r2.2).2
      let r4 := sys_int E (Prim.ioctl cov.fd IoctlReq.KIOSETBUFSIZE P.kCoverSize) s3
      if r4.1 ≠ 0 then
        Outcome.fatal "ioctl init trace write failed" (cov, r4.2)
      else
        Outcome.ok ({ cov with mmap_alloc_size := P.kCoverSize * KCOV_ENTRY_SIZE }, r4.2)

/-- Function `cover_mmap(cov)`; `is_kernel_64_bit` is the executor's global flag. -/
def cover_mmap (E : Env) (is_kernel_64_bit : Bool) (cov : cover_t) (s : State) :
    Outcome (cover_t × State) :=
  if cov.data.addr ≠ NULL.addr then
    Outcome.fatal "cover_mmap invoked on an already mmapped cover_t object" (cov, s)
  else
    let r := mmap E NULL.addr cov.mmap_alloc_size (PROT_READ ||| PROT_WRITE) MAP_SHARED
      cov.fd 0 s
    if r.1.addr = MAP_FAILED.addr then
      Outcome.fatal "cover mmap failed" (cov, r.2)
    else
      Outcome.ok ({ cov with
        data := r.1,
        data_end := r.1.add cov.mmap_alloc_size,
        data_offset := if is_kernel_64_bit then 8 else 4,
        pc_offset := 0 }, r.2)

/-- Function `cover_protect(cov)`: the body is compiled out. -/
def cover_protect (cov : cover_t) (s : State) : State := s

/-- Function `cover_unprotect(cov)`: the body is compiled out. -/
def cover_unprotect (cov : cover_t) (s : State) : State := s

/-- Function `cover_enable(cov, collect_comps, extra)`. -/
def cover_enable (E : Env) (cov : cover_t) (collect_comps extra : Bool) (s : State) :
    Outcome State :=
  let kcov_mode := if collect_comps then KCOV_MODE_TRACE_CMP else KCOV_MODE_TRACE_PC
  let r := sys_int E (Prim.ioctl cov.fd IoctlReq.KIOENABLE kcov_mode) s
  if r.1 ≠ 0 then
    Outcome.fatal "cover enable write trace failed" r.2
  else
    Outcome.ok r.2

/-- Function `cover_reset(cov)`: the statement `*(uint64*)cov->data = 0`. -/
def cover_reset (cov : cover_t) (s : State) : State :=
  { s with mem := store64 s.mem cov.data.addr 0 }

/-- Function `cover_collect(cov)`: the statement `cov->size = *(uint64*)cov->data`;
the value is converted to the width of the field `size`. -/
def cover_collect (P : Params) (cov : cover_t) (s : State) : cover_t :=
  { cov with size := load64 s.mem cov.data.addr % 2 ^ P.size_bits }

/-- Function `is_kernel_data(addr)`. -/
def is_kernel_data (addr : Nat) : Bool := false

/-- Function `is_kernel_pc(pc)`. -/
def is_kernel_pc (pc : Nat) : Int := 0

/-- Function `use_cover_edges(pc)`. -/
def use_cover_edges (pc : Nat) : Bool := true

/-! ## Concrete environments and inputs -/

/-- An environment in which every primitive succeeds: `mmap` returns a capability
for exactly the requested range (placed at `0x40000000` when no address is asked
for), `open` returns descriptor 3 and every other `int` result is 0. -/
def envOk : Env where
  ptr_result := fun _ c =>
    match c with
    | Prim.mmap addr len _ _ _ _ => if addr = 0 then ⟨0x40000000, len⟩ else ⟨addr, len⟩
    | _ => NULL
  int_result := fun _ c =>
    match c with
    | Prim.openFile _ _ => 3
    | _ => 0

/-- An environment in which every primitive fails: `mmap` returns `MAP_FAILED` and
every `int` result is -1. -/
def envFail : Env where
  ptr_result := fun _ _ => MAP_FAILED
  int_result := fun _ _ => -1

/-- An environment that differs from `envOk` in one respect: `mmap` refuses a
request of length 0 (`EINVAL`). -/
def envNoEmpty : Env where
  ptr_result := fun h c =>
    match c with
    | Prim.mmap _ 0 _ _ _ _ => MAP_FAILED
    | _ => envOk.ptr_result h c
  int_result := envOk.int_result

/-- Constants as the executor declares them: 250 descriptors, a coverage buffer of
`256 << 10` entries, a 32-bit `size` field. -/
def params0 : Params := ⟨250, 262144, 32⟩

/-- The state of a fresh process: no shared region, nothing mapped, memory zero. -/
def state0 : State := ⟨NULL, [], [], fun _ => 0⟩

/-- A coverage record before `cover_open`, bound to descriptor 200. -/
def cov0 : cover_t := ⟨200, 0, 0, NULL, NULL, 0, 0⟩

/-- The record `cover_open` produces from `cov0` in `envOk`. -/
def covOpened : cover_t := ⟨200, 0, 2097152, NULL, NULL, 0, 0⟩

/-- The state `cover_open` leaves when run on `state0` in `envOk`. -/
def stOpened : State :=
  ⟨NULL, [Prim.openFile "/dev/kcov" O_RDWR, Prim.dup2 3 200, Prim.close 3,
    Prim.ioctl 200 IoctlReq.KIOSETBUFSIZE 262144], [], fun _ => 0⟩

/-- The record `cover_open` and then `cover_mmap` produce from `cov0` in `envOk` on a
64-bit kernel: 2 MiB mapped at `0x40000000`. -/
def covMapped : cover_t :=
  ⟨200, 0, 2097152, ⟨0x40000000, 2097152⟩, ⟨0x40000000 + 2097152, 2097152⟩, 8, 0⟩

/-- The record `cover_open` and then `cover_mmap` produce from `cov0` in `envOk` on a
32-bit kernel: as `covMapped`, with `data_offset` 4. -/
def covMapped32 : cover_t :=
  ⟨200, 0, 2097152, ⟨0x40000000, 2097152⟩, ⟨0x40000000 + 2097152, 2097152⟩, 4, 0⟩

/-- The state `cover_mmap` leaves when run on `stOpened` in `envOk`, with the memory
contents `mem` (the coverage device writes the buffer). -/
def stMapped (mem : Nat → Nat) : State :=
  ⟨NULL, stOpened.trace ++ [Prim.mmap 0 2097152 (PROT_READ ||| PROT_WRITE) MAP_SHARED 200 0],
    [⟨0x40000000, 2097152, PROT_READ ||| PROT_WRITE, MAP_SHARED, 200⟩], mem⟩

/-- Buffer contents on a 32-bit kernel after one traced instruction: the 4-byte count
at offset 0 is 1, the first 4-byte entry at offset 4 is `0xAB`. -/
def memEntry32 : Nat → Nat :=
  fun x => if x = 0x40000000 then 1 else if x = 0x40000004 then 0xAB else 0

/-- Buffer contents whose first eight bytes are all `0xFF`. -/
def memFull : Nat → Nat := fun _ => 0xFF

/-- Buffer contents on a 64-bit kernel after one traced instruction: the count at
offset 0 is 1. -/
def memOne : Nat → Nat := fun x => if x = 0x40000000 then 1 else 0

/-- The state `os_init` leaves when asked, in a fresh process and with a kernel that
grants the request, for the region at `0x20000000` of length `0x1000`.  Memory is
all zero: the zero-filled new range over the zero memory of `state0`. -/
def stRegion : State :=
  ⟨⟨0x20000000, 0x1000⟩,
    [Prim.mmap 0x20000000 0x1000 (PROT_READ ||| PROT_WRITE ||| PROT_EXEC)
      (MAP_PRIVATE ||| MAP_ANON ||| MAP_FIXED) (-1) 0,
     Prim.setrlimit RLIMIT_NOFILE 250 250, Prim.sigaction SIGCHLD],
    [⟨0x20000000, 0x1000, PROT_READ ||| PROT_WRITE ||| PROT_EXEC,
      MAP_PRIVATE ||| MAP_ANON ||| MAP_FIXED, -1⟩],
    fun x => if 0x20000000 ≤ x ∧ x < 0x20000000 + 0x1000 then 0 else 0⟩

/-! ## Lemmas on the primitives -/

/-- A failed `mmap` only adds its record to the trace. -/
theorem mmap_of_failed (E : Env) (addr len prot flags : Nat) (fd : Int) (off : Nat)
    (s : State)
    (h : (E.ptr_result s.trace (Prim.mmap addr len prot flags fd off)).addr =
      MAP_FAILED.addr) :
    mmap E addr len prot flags fd off s =
      (E.ptr_result s.trace (Prim.mmap addr len prot flags fd off),
        { s with trace := s.trace ++ [Prim.mmap addr len prot flags fd off] }) := by
  unfold mmap
  simp only [h, if_true]

/-- A successful `mmap` adds its record to the trace and the new mapping to the
live mappings. -/
theorem mmap_of_ok (E : Env) (addr len prot flags : Nat) (fd : Int) (off : Nat)
    (s : State)
    (h : (E.ptr_result s.trace (Prim.mmap addr len prot flags fd off)).addr ≠
      MAP_FAILED.addr) :
    mmap E addr len prot flags fd off s =
      (E.ptr_result s.trace (Prim.mmap addr len prot flags fd off),
        { s with
          trace := s.trace ++ [Prim.mmap addr len prot flags fd off],
          maps := ⟨(E.ptr_result s.trace (Prim.mmap addr len prot flags fd off)).addr,
              len, prot, flags, fd⟩ ::
            (if flags &&& MAP_FIXED ≠ 0 then
              unmapRange (E.ptr_result s.trace (Prim.mmap addr len prot flags fd off)).addr
                len s.maps
             else s.maps),
          mem := if flags &&& MAP_ANON ≠ 0 then
              fun x =>
                if (E.ptr_result s.trace (Prim.mmap addr len prot flags fd off)).addr ≤ x ∧
                    x < (E.ptr_result s.trace (Prim.mmap addr len prot flags fd off)).addr
                      + len then 0
                else s.mem x
            else s.mem }) := by
  unfold mmap
  simp only [h, if_false]

/-- The trace after `mmap`, whether it succeeded or not. -/
theorem mmap_trace (E : Env) (addr len prot flags : Nat) (fd : Int) (off : Nat)
    (s : State) :
    (mmap E addr len prot flags fd off s).2.trace =
      s.trace ++ [Prim.mmap addr len prot flags fd off] := by
  by_cases h : (E.ptr_result s.trace (Prim.mmap addr len prot flags fd off)).addr =
      MAP_FAILED.addr
  · rw [mmap_of_failed E addr len prot flags fd off s h]
  · rw [mmap_of_ok E addr len prot flags fd off s h]

/-- The pointer `mmap` returns is the environment's answer. -/
theorem mmap_fst (E : Env) (addr len prot flags : Nat) (fd : Int) (off : Nat)
    (s : State) :
    (mmap E addr len prot flags fd off s).1 =
      E.ptr_result s.trace (Prim.mmap addr len prot flags fd off) := by
  by_cases h : (E.ptr_result s.trace (Prim.mmap addr len prot flags fd off)).addr =
      MAP_FAILED.addr
  · rw [mmap_of_failed E addr len prot flags fd off s h]
  · rw [mmap_of_ok E addr len prot flags fd off s h]

/-- Every piece left by `Mapping.carve` lies inside the mapping it was cut from and
outside the range that was cut out. -/
theorem carve_piece (a l : Nat) (m p : Mapping) (hp : p ∈ Mapping.carve a l m) :
    m.addr ≤ p.addr ∧ p.addr + p.len ≤ m.addr + m.len ∧
    (p.addr + p.len ≤ a ∨ a + l ≤ p.addr) := by
  unfold Mapping.carve at hp
  rw [List.mem_append] at hp
  rcases hp with hp | hp
  · split at hp
    · rw [List.mem_singleton] at hp
      subst hp
      simp only
      omega
    · cases hp
  · split at hp
    · rw [List.mem_singleton] at hp
      subst hp
      simp only
      omega
    · cases hp

/-- Every mapping left by `unmapRange` lies inside a mapping that was live before and
outside the range that was unmapped. -/
theorem unmapRange_piece (a l : Nat) (ms : List Mapping) (p : Mapping)
    (hp : p ∈ unmapRange a l ms) :
    (∃ m ∈ ms, m.addr ≤ p.addr ∧ p.addr + p.len ≤ m.addr + m.len) ∧
    (p.addr + p.len ≤ a ∨ a + l ≤ p.addr) := by
  unfold unmapRange at hp
  rw [List.mem_flatMap] at hp
  obtain ⟨m, hm, hpm⟩ := hp
  have h := carve_piece a l m p hpm
  exact ⟨⟨m, hm, h.1, h.2.1⟩, h.2.2⟩

/-! ## Theorems -/

/-- C10: the three address classifiers are constant functions: for every address,
`is_kernel_data` is false, `is_kernel_pc` is 0 and `use_cover_edges` is true; so equal
(indeed any two) inputs give equal outputs, and no state is read or written (the
functions take and return no state). -/
theorem classifiers_constant (addr other : Nat) :
    is_kernel_data addr = false ∧ is_kernel_pc addr = 0 ∧ use_cover_edges addr = true ∧
    is_kernel_data addr = is_kernel_data other ∧
    is_kernel_pc addr = is_kernel_pc other ∧
    use_cover_edges addr = use_cover_edges other :=
  ⟨rfl, rfl, rfl, rfl, rfl, rfl⟩

/-- C8: `execute_syscall` invokes exactly one primitive, once: the native entry point
`c->call` when it is non-null, the trap `__syscall` with `c->sys_nr` otherwise; either
way with the nine arguments `a[0]`..`a[8]` in index order.  It returns the value that
primitive returned, unchanged, and touches nothing else in the state. -/
theorem execute_syscall_dispatch (E : Env) (c : call_t) (a : Nat → Int) (s : State) :
    (c.call ≠ 0 →
      execute_syscall E c a s =
        (E.int_result s.trace
            (Prim.call c.call [a 0, a 1, a 2, a 3, a 4, a 5, a 6, a 7, a 8]),
          { s with trace := s.trace ++
            [Prim.call c.call [a 0, a 1, a 2, a 3, a 4, a 5, a 6, a 7, a 8]] })) ∧
    (c.call = 0 →
      execute_syscall E c a s =
        (E.int_result s.trace
            (Prim.syscall c.sys_nr [a 0, a 1, a 2, a 3, a 4, a 5, a 6, a 7, a 8]),
          { s with trace := s.trace ++
            [Prim.syscall c.sys_nr [a 0, a 1, a 2, a 3, a 4, a 5, a 6, a 7, a 8]] })) := by
  constructor
  · intro h
    simp [execute_syscall, sys_int, h]
  · intro h
    simp [execute_syscall, sys_int, h]

/-- C1: on a buffer whose `data` is non-null, `cover_mmap` ends the process with the
diagnostic of line 74, in the very state it was called in: no primitive was issued
(so no mapping was created or replaced) and no field of the buffer changed. -/
theorem cover_mmap_already_mapped (E : Env) (is_kernel_64_bit : Bool) (cov : cover_t)
    (s : State) (h : cov.data.addr ≠ NULL.addr) :
    cover_mmap E is_kernel_64_bit cov s =
      Outcome.fatal "cover_mmap invoked on an already mmapped cover_t object" (cov, s) := by
  simp [cover_mmap, h]

/-- C2: `cover_reset` followed by `cover_collect`, with no write in between, leaves
`cov->size` equal to 0, whatever the buffer held; neither function reads the kernel
bitness, so this holds for both. -/
theorem cover_reset_then_collect (P : Params) (cov : cover_t) (s : State) :
    (cover_collect P cov (cover_reset cov s)).size = 0 := by
  simp [cover_collect, cover_reset, load64, store64]

/-- Witness for C1: the record that `cover_open` and `cover_mmap` produced is mapped a
second time; the call is fatal and leaves record and state as they were. -/
theorem cover_mmap_already_mapped_witness :
    cover_mmap envOk true covMapped (stMapped memOne) =
      Outcome.fatal "cover_mmap invoked on an already mmapped cover_t object"
        (covMapped, stMapped memOne) :=
  cover_mmap_already_mapped envOk true covMapped (stMapped memOne) (by decide)

/-- C9: on a buffer that `cover_open` returned and whose `data` is null, `cover_mmap`
issues exactly one primitive, `mmap(NULL, kCoverSize * KCOV_ENTRY_SIZE,
PROT_READ | PROT_WRITE, MAP_SHARED, cov->fd, 0)`.  When it succeeds the result has
`data` equal to the returned pointer, `data_end = data + mmap_alloc_size`,
`data_offset` 8 on a 64-bit kernel and 4 otherwise, `pc_offset` 0, and `fd`, `size`
and `mmap_alloc_size` as before, and the mapping is live; when it fails the call is
fatal and the record (with `data` still null) is unchanged. -/
theorem cover_mmap_maps_buffer (E : Env) (P : Params) (is_kernel_64_bit extra : Bool)
    (c0 cov : cover_t) (s0 s : State)
    (hopen : cover_open E P c0 extra s0 = Outcome.ok (cov, s))
    (hnull : cov.data.addr = NULL.addr) :
    cov.mmap_alloc_size = P.kCoverSize * KCOV_ENTRY_SIZE ∧
    (cover_mmap E is_kernel_64_bit cov s).state.2.trace =
      s.trace ++ [Prim.mmap 0 (P.kCoverSize * KCOV_ENTRY_SIZE) (PROT_READ ||| PROT_WRITE)
        MAP_SHARED cov.fd 0] ∧
    ((E.ptr_result s.trace (Prim.mmap 0 (P.kCoverSize * KCOV_ENTRY_SIZE)
          (PROT_READ ||| PROT_WRITE) MAP_SHARED cov.fd 0)).addr ≠ MAP_FAILED.addr →
      cover_mmap E is_kernel_64_bit cov s =
        Outcome.ok
          ({ fd := cov.fd, size := cov.size, mmap_alloc_size := cov.mmap_alloc_size,
             data := E.ptr_result s.trace (Prim.mmap 0 (P.kCoverSize * KCOV_ENTRY_SIZE)
               (PROT_READ ||| PROT_WRITE) MAP_SHARED cov.fd 0),
             data_end := (E.ptr_result s.trace (Prim.mmap 0
               (P.kCoverSize * KCOV_ENTRY_SIZE) (PROT_READ ||| PROT_WRITE) MAP_SHARED
               cov.fd 0)).add cov.mmap_alloc_size,
             data_offset := if is_kernel_64_bit then 8 else 4,
             pc_offset := 0 },
           { s with
             trace := s.trace ++ [Prim.mmap 0 (P.kCoverSize * KCOV_ENTRY_SIZE)
               (PROT_READ ||| PROT_WRITE) MAP_SHARED cov.fd 0],
             maps := ⟨(E.ptr_result s.trace (Prim.mmap 0 (P.kCoverSize * KCOV_ENTRY_SIZE)
                 (PROT_READ ||| PROT_WRITE) MAP_SHARED cov.fd 0)).addr,
               P.kCoverSize * KCOV_ENTRY_SIZE, PROT_READ ||| PROT_WRITE, MAP_SHARED,
               cov.fd⟩ :: s.maps })) ∧
    ((E.ptr_result s.trace (Prim.mmap 0 (P.kCoverSize * KCOV_ENTRY_SIZE)
          (PROT_READ ||| PROT_WRITE) MAP_SHARED cov.fd 0)).addr = MAP_FAILED.addr →
      cov.data.addr = NULL.addr ∧
      cover_mmap E is_kernel_64_bit cov s =
        Outcome.fatal "cover mmap failed"
          (cov, { s with trace := s.trace ++ [Prim.mmap 0 (P.kCoverSize * KCOV_ENTRY_SIZE)
            (PROT_READ ||| PROT_WRITE) MAP_SHARED cov.fd 0] })) := by
  have hsize : cov.mmap_alloc_size = P.kCoverSize * KCOV_ENTRY_SIZE := by
    unfold cover_open at hopen
    simp only [] at hopen
    split at hopen
    · cases hopen
    · split at hopen
      · cases hopen
      · split at hopen
        · cases hopen
        · cases hopen
          rfl
  have hz : NULL.addr = 0 := rfl
  have hfix : ¬ (MAP_SHARED &&& MAP_FIXED ≠ 0) := by decide
  have hanon : ¬ (MAP_SHARED &&& MAP_ANON ≠ 0) := by decide
  rw [← hsize]
  refine ⟨rfl, ?_, ?_, ?_⟩
  · unfold cover_mmap
    simp only [hnull, ne_eq, not_true_eq_false, if_false, hz]
    split
    · simp only [Outcome.state, mmap_trace]
    · simp only [Outcome.state, mmap_trace]
  · intro hf
    unfold cover_mmap
    simp only [hnull, ne_eq, not_true_eq_false, if_false, hz]
    rw [mmap_of_ok E 0 _ _ _ _ _ s hf]
    simp only [hf, if_false, hfix, hanon]
  · intro hf
    refine ⟨hnull, ?_⟩
    unfold cover_mmap
    simp only [hnull, ne_eq, not_true_eq_false, if_false, hz]
    rw [mmap_of_failed E 0 _ _ _ _ _ s hf]
    simp only [hf, if_true]

/-- Witness for C9: `cov0` is opened and then mapped in `envOk` on a 64-bit kernel;
the result is `covMapped`. -/
theorem cover_mmap_maps_buffer_witness :
    cover_open envOk params0 cov0 false state0 = Outcome.ok (covOpened, stOpened) ∧
    covOpened.data.addr = NULL.addr ∧
    (cover_mmap envOk true covOpened stOpened).state.1 = covMapped := by
  have h := (cover_mmap_maps_buffer envOk params0 true false cov0 covOpened state0
    stOpened rfl rfl).2.2.1 (by decide)
  refine ⟨rfl, rfl, ?_⟩
  rw [h]
  rfl

/-- Second call of `os_init` on a region that already has the requested bounds: only
`setrlimit` and `sigaction` are issued. -/
theorem os_init_same_bounds (E : Env) (P : Params) (data data_size : Nat) (s : State)
    (hnonnull : data ≠ NULL.addr) (hptr : s.syz_data_ptr = ⟨data, data_size⟩) :
    os_init E P data data_size s =
      Outcome.ok { s with trace := s.trace ++
        [Prim.setrlimit RLIMIT_NOFILE P.kMaxFd P.kMaxFd, Prim.sigaction SIGCHLD] } := by
  unfold os_init
  simp [hptr, hnonnull, cheri_getlen, cheri_getaddress, sys_int]

/-- C3: let (`data`, `data_size`) be a valid pair, that is, `data` is not the null
address and the first `os_init` leaves the region pointer bounded to exactly that
address and length.  Then
a second `os_init` with the same arguments returns normally and issues only
`setrlimit` and `sigaction`: no `munmap`, no `mmap`; the region pointer (address and
length), the live mappings and the contents of memory are those left by the first
call. -/
theorem os_init_idempotent (E : Env) (P : Params) (data data_size : Nat) (s : State)
    (hnonnull : data ≠ NULL.addr)
    (hvalid : (os_init E P data data_size s).state.syz_data_ptr = ⟨data, data_size⟩) :
    os_init E P data data_size (os_init E P data data_size s).state =
      Outcome.ok { (os_init E P data data_size s).state with
        trace := (os_init E P data data_size s).state.trace ++
          [Prim.setrlimit RLIMIT_NOFILE P.kMaxFd P.kMaxFd, Prim.sigaction SIGCHLD] } :=
  os_init_same_bounds E P data data_size _ hnonnull hvalid

/-- Witness for C3: in a fresh process with a kernel that grants the request, the
region at `0x20000000` of length `0x1000` is set up twice. -/
theorem os_init_idempotent_witness :
    (os_init envOk params0 0x20000000 0x1000 state0).state.syz_data_ptr =
      ⟨0x20000000, 0x1000⟩ ∧
    os_init envOk params0 0x20000000 0x1000
        (os_init envOk params0 0x20000000 0x1000 state0).state =
      Outcome.ok { (os_init envOk params0 0x20000000 0x1000 state0).state with
        trace := (os_init envOk params0 0x20000000 0x1000 state0).state.trace ++
          [Prim.setrlimit RLIMIT_NOFILE params0.kMaxFd params0.kMaxFd,
           Prim.sigaction SIGCHLD] } :=
  ⟨by decide,
    os_init_idempotent envOk params0 0x20000000 0x1000 state0 (by decide) (by decide)⟩

/-- Counterexample to C5: in a fresh process with a kernel that refuses everything
(`mmap` returns `MAP_FAILED`, `setrlimit` returns -1), `os_init` returns normally, with
`MAP_FAILED` stored as the region pointer. -/
theorem os_init_failure_not_fatal :
    envFail.ptr_result state0.trace
        (Prim.mmap 0x20000000 0x1000 (PROT_READ ||| PROT_WRITE ||| PROT_EXEC)
          (MAP_PRIVATE ||| MAP_ANON ||| MAP_FIXED) (-1) 0) = MAP_FAILED ∧
    envFail.int_result (os_init envFail params0 0x20000000 0x1000 state0).state.trace
        (Prim.setrlimit RLIMIT_NOFILE 250 250) = -1 ∧
    (os_init envFail params0 0x20000000 0x1000 state0).returns = true ∧
    (os_init envFail params0 0x20000000 0x1000 state0).state.syz_data_ptr = MAP_FAILED ∧
    (os_init envFail params0 0x20000000 0x1000 state0).state.maps = [] := by
  decide

/-- C5, amended: `os_init` has no fatal path.  For every environment, also one in
which `mmap` or `setrlimit` fails, it returns normally; `setrlimit` and then
`sigaction` are the last two primitives it issues; and when it maps the region for the
first time the region pointer is whatever `mmap` returned, `MAP_FAILED` included. -/
theorem os_init_returns_normally (E : Env) (P : Params) (data data_size : Nat)
    (s : State) :
    (os_init E P data data_size s).returns = true ∧
    (∃ mid, (os_init E P data data_size s).state.trace =
      s.trace ++ mid ++
        [Prim.setrlimit RLIMIT_NOFILE P.kMaxFd P.kMaxFd, Prim.sigaction SIGCHLD]) ∧
    (s.syz_data_ptr.addr = NULL.addr →
      (os_init E P data data_size s).state.syz_data_ptr =
        E.ptr_result s.trace
          (Prim.mmap data data_size (PROT_READ ||| PROT_WRITE ||| PROT_EXEC)
            (MAP_PRIVATE ||| MAP_ANON ||| MAP_FIXED) (-1) 0)) := by
  refine ⟨rfl, ?_, ?_⟩
  · unfold os_init
    simp only [Outcome.state, sys_int]
    split
    · split
      · refine ⟨[Prim.munmap s.syz_data_ptr.addr (cheri_getlen s.syz_data_ptr),
          Prim.mmap data data_size (PROT_READ ||| PROT_WRITE ||| PROT_EXEC)
            (MAP_PRIVATE ||| MAP_ANON ||| MAP_FIXED) (-1) 0], ?_⟩
        simp [mmap_trace, munmap]
      · exact ⟨[], by simp⟩
    · refine ⟨[Prim.mmap data data_size (PROT_READ ||| PROT_WRITE ||| PROT_EXEC)
          (MAP_PRIVATE ||| MAP_ANON ||| MAP_FIXED) (-1) 0], ?_⟩
      simp [mmap_trace]
  · intro hnull
    unfold os_init
    simp only [Outcome.state, sys_int, hnull, ne_eq, not_true_eq_false, if_false, mmap_fst]

/-- Counterexample to C4: the region at `0x20000000` of length `0x1000` is live
(`stRegion`, the state a first `os_init` leaves) and `os_init` is asked for the same
address with length 0, which the kernel refuses.  The old region is unmapped, no new
mapping exists, `os_init` returns normally, and the region pointer is `MAP_FAILED`,
not a pointer with the requested bounds. -/
theorem os_init_remap_counterexample :
    os_init envNoEmpty params0 0x20000000 0x1000 state0 = Outcome.ok stRegion ∧
    (os_init envNoEmpty params0 0x20000000 0 stRegion).returns = true ∧
    (os_init envNoEmpty params0 0x20000000 0 stRegion).state.trace =
      stRegion.trace ++
        [Prim.munmap 0x20000000 0x1000,
         Prim.mmap 0x20000000 0 (PROT_READ ||| PROT_WRITE ||| PROT_EXEC)
           (MAP_PRIVATE ||| MAP_ANON ||| MAP_FIXED) (-1) 0,
         Prim.setrlimit RLIMIT_NOFILE 250 250, Prim.sigaction SIGCHLD] ∧
    (os_init envNoEmpty params0 0x20000000 0 stRegion).state.syz_data_ptr = MAP_FAILED ∧
    (os_init envNoEmpty params0 0x20000000 0 stRegion).state.syz_data_ptr ≠
      ⟨0x20000000, 0⟩ ∧
    (os_init envNoEmpty params0 0x20000000 0 stRegion).state.maps = [] :=
  ⟨rfl, by decide, by decide, by decide, by decide, by decide⟩

/-- C4, amended: when a region (A, S) is recorded (`syz_data_ptr` non-null with address
A and length S) and the request (A1, S1) differs from it in address or length,
`os_init` issues `munmap(A, S)` and then
`mmap(A1, S1, PROT_READ | PROT_WRITE | PROT_EXEC, MAP_PRIVATE | MAP_ANON | MAP_FIXED,
-1, 0)`, followed by `setrlimit` and `sigaction`, and stores what `mmap` returned as
the region pointer.  Whenever the kernel honours both calls (`munmap` answers 0 and
`mmap` returns a pointer with bounds exactly (A1, S1)), the region pointer has bounds
(A1, S1), the new mapping is live, and whatever is left of earlier mappings lies
outside the prior region `[A, A + S)`. -/
theorem os_init_remap (E : Env) (P : Params) (s : State) (A1 S1 : Nat)
    (hprior : s.syz_data_ptr.addr ≠ NULL.addr)
    (hdiff : s.syz_data_ptr.addr ≠ A1 ∨ s.syz_data_ptr.len ≠ S1) :
    (os_init E P A1 S1 s).returns = true ∧
    (os_init E P A1 S1 s).state.trace =
      s.trace ++
        [Prim.munmap s.syz_data_ptr.addr s.syz_data_ptr.len,
         Prim.mmap A1 S1 (PROT_READ ||| PROT_WRITE ||| PROT_EXEC)
           (MAP_PRIVATE ||| MAP_ANON ||| MAP_FIXED) (-1) 0,
         Prim.setrlimit RLIMIT_NOFILE P.kMaxFd P.kMaxFd, Prim.sigaction SIGCHLD] ∧
    (os_init E P A1 S1 s).state.syz_data_ptr =
      E.ptr_result (s.trace ++ [Prim.munmap s.syz_data_ptr.addr s.syz_data_ptr.len])
        (Prim.mmap A1 S1 (PROT_READ ||| PROT_WRITE ||| PROT_EXEC)
          (MAP_PRIVATE ||| MAP_ANON ||| MAP_FIXED) (-1) 0) ∧
    (E.int_result s.trace (Prim.munmap s.syz_data_ptr.addr s.syz_data_ptr.len) = 0 →
      E.ptr_result (s.trace ++ [Prim.munmap s.syz_data_ptr.addr s.syz_data_ptr.len])
        (Prim.mmap A1 S1 (PROT_READ ||| PROT_WRITE ||| PROT_EXEC)
          (MAP_PRIVATE ||| MAP_ANON ||| MAP_FIXED) (-1) 0) = ⟨A1, S1⟩ →
      A1 ≠ MAP_FAILED.addr →
      (os_init E P A1 S1 s).state.syz_data_ptr = ⟨A1, S1⟩ ∧
      ∃ rest, (os_init E P A1 S1 s).state.maps =
          ⟨A1, S1, PROT_READ ||| PROT_WRITE ||| PROT_EXEC,
            MAP_PRIVATE ||| MAP_ANON ||| MAP_FIXED, -1⟩ :: rest ∧
        ∀ m ∈ rest, m.addr + m.len ≤ s.syz_data_ptr.addr ∨
          s.syz_data_ptr.addr + s.syz_data_ptr.len ≤ m.addr) := by
  have hcond : cheri_getlen s.syz_data_ptr ≠ S1 ∨ cheri_getaddress s.syz_data_ptr ≠ A1 := by
    unfold cheri_getlen cheri_getaddress
    tauto
  have hstate : (os_init E P A1 S1 s).state =
      (sys_int E (Prim.sigaction SIGCHLD)
        (sys_int E (Prim.setrlimit RLIMIT_NOFILE P.kMaxFd P.kMaxFd)
          { (mmap E A1 S1 (PROT_READ ||| PROT_WRITE ||| PROT_EXEC)
                (MAP_PRIVATE ||| MAP_ANON ||| MAP_FIXED) (-1) 0
                (munmap E s.syz_data_ptr s.syz_data_ptr.len s).2).2 with
            syz_data_ptr := (mmap E A1 S1 (PROT_READ ||| PROT_WRITE ||| PROT_EXEC)
                (MAP_PRIVATE ||| MAP_ANON ||| MAP_FIXED) (-1) 0
                (munmap E s.syz_data_ptr s.syz_data_ptr.len s).2).1 }).2).2 := by
    unfold os_init
    simp only [Outcome.state, hprior, hcond, ne_eq, not_false_eq_true, if_true]
    rfl
  have htr : (munmap E s.syz_data_ptr s.syz_data_ptr.len s).2.trace =
      s.trace ++ [Prim.munmap s.syz_data_ptr.addr s.syz_data_ptr.len] := rfl
  refine ⟨rfl, ?_, ?_, ?_⟩
  · rw [hstate]
    simp only [sys_int, mmap_trace, htr, List.append_assoc, List.singleton_append,
      List.cons_append, List.nil_append]
  · rw [hstate]
    simp only [sys_int, mmap_fst, htr]
  · intro hun hmap hok
    have hok2 : (E.ptr_result (munmap E s.syz_data_ptr s.syz_data_ptr.len s).2.trace
        (Prim.mmap A1 S1 (PROT_READ ||| PROT_WRITE ||| PROT_EXEC)
          (MAP_PRIVATE ||| MAP_ANON ||| MAP_FIXED) (-1) 0)).addr ≠ MAP_FAILED.addr := by
      rw [htr, hmap]
      exact hok
    have hfix : (MAP_PRIVATE ||| MAP_ANON ||| MAP_FIXED) &&& MAP_FIXED ≠ 0 := by decide
    rw [hstate]
    refine ⟨?_, unmapRange A1 S1 (unmapRange s.syz_data_ptr.addr s.syz_data_ptr.len s.maps),
      ?_, ?_⟩
    · simp only [sys_int, mmap_fst, htr, hmap]
    · simp only [sys_int]
      rw [mmap_of_ok E A1 S1 _ _ _ _ _ hok2]
      simp only [htr, hmap]
      simp only [munmap, hun, if_true]
      rw [if_pos hfix]
    · intro m hm
      obtain ⟨⟨m1, hm1, hlo, hhi⟩, _⟩ := unmapRange_piece A1 S1 _ m hm
      have h1 := (unmapRange_piece s.syz_data_ptr.addr s.syz_data_ptr.len s.maps m1 hm1).2
      omega

/-- Witness for C4: the region at `0x20000000` of length `0x1000` is live and
`os_init` is asked for length `0x2000` at the same address. -/
theorem os_init_remap_witness :
    (os_init envOk params0 0x20000000 0x2000 stRegion).state.syz_data_ptr =
      ⟨0x20000000, 0x2000⟩ ∧
    (os_init envOk params0 0x20000000 0x2000 stRegion).state.maps =
      [⟨0x20000000, 0x2000, PROT_READ ||| PROT_WRITE ||| PROT_EXEC,
        MAP_PRIVATE ||| MAP_ANON ||| MAP_FIXED, -1⟩] ∧
    (os_init envOk params0 0x20000000 0x2000 stRegion).state.trace =
      stRegion.trace ++
        [Prim.munmap 0x20000000 0x1000,
         Prim.mmap 0x20000000 0x2000 (PROT_READ ||| PROT_WRITE ||| PROT_EXEC)
           (MAP_PRIVATE ||| MAP_ANON ||| MAP_FIXED) (-1) 0,
         Prim.setrlimit RLIMIT_NOFILE 250 250, Prim.sigaction SIGCHLD] :=
  ⟨((os_init_remap envOk params0 stRegion 0x20000000 0x2000 (by decide)
      (by decide)).2.2.2 (by decide) (by decide) (by decide)).1,
    by decide,
    (os_init_remap envOk params0 stRegion 0x20000000 0x2000 (by decide) (by decide)).2.1⟩

/-- Counterexample to C6: on a 32-bit kernel `cover_mmap` records `data_offset` 4, so
byte 4 of the buffer belongs to the first trace entry; `cover_reset` nevertheless
overwrites it (`0xAB` becomes 0), and the word `cover_collect` reads contains it
(the 8-byte word is `1 + 0xAB * 2^32`, the 4-byte count is 1). -/
theorem header_width_counterexample :
    (cover_mmap envOk false covOpened stOpened).state.1 = covMapped32 ∧
    covMapped32.data_offset = 4 ∧
    (stMapped memEntry32).mem (covMapped32.data.addr + 4) = 0xAB ∧
    (cover_reset covMapped32 (stMapped memEntry32)).mem (covMapped32.data.addr + 4) = 0 ∧
    load64 (stMapped memEntry32).mem covMapped32.data.addr = 1 + 0xAB * 2 ^ 32 := by
  decide

/-- C6, amended: for either kernel bitness `cover_reset` writes and `cover_collect`
reads the header cell as one 8-byte word at `cov->data`.  `cover_reset` sets exactly
the bytes at offsets 0..7 to zero and changes nothing else; the `size` that
`cover_collect` stores is the little-endian value of the bytes at offsets 0..7,
converted to the width of the field, and depends on no other byte.  The width 8
equals the `data_offset` recorded by `cover_mmap` exactly when `is_kernel_64_bit` is
true. -/
theorem header_cell_is_uint64 (E : Env) (P : Params) (is_kernel_64_bit : Bool)
    (cov : cover_t) (s : State) :
    (∀ x, (cover_reset cov s).mem x =
      if cov.data.addr ≤ x ∧ x < cov.data.addr + 8 then 0 else s.mem x) ∧
    (cover_reset cov s).trace = s.trace ∧ (cover_reset cov s).maps = s.maps ∧
    (cover_reset cov s).syz_data_ptr = s.syz_data_ptr ∧
    (cover_collect P cov s).size =
      (s.mem cov.data.addr % 256 + (s.mem (cov.data.addr + 1) % 256) * 256 ^ 1 +
        (s.mem (cov.data.addr + 2) % 256) * 256 ^ 2 +
        (s.mem (cov.data.addr + 3) % 256) * 256 ^ 3 +
        (s.mem (cov.data.addr + 4) % 256) * 256 ^ 4 +
        (s.mem (cov.data.addr + 5) % 256) * 256 ^ 5 +
        (s.mem (cov.data.addr + 6) % 256) * 256 ^ 6 +
        (s.mem (cov.data.addr + 7) % 256) * 256 ^ 7) % 2 ^ P.size_bits ∧
    (∀ s2 : State, (∀ i, i < 8 → s2.mem (cov.data.addr + i) = s.mem (cov.data.addr + i)) →
      cover_collect P cov s2 = cover_collect P cov s) ∧
    (∀ cov1 s1, cover_mmap E is_kernel_64_bit cov s = Outcome.ok (cov1, s1) →
      (cov1.data_offset = 8 ↔ is_kernel_64_bit = true)) := by
  refine ⟨?_, rfl, rfl, rfl, rfl, ?_, ?_⟩
  · intro x
    simp [cover_reset, store64]
  · intro s2 h
    have h0 := h 0 (by omega)
    rw [Nat.add_zero] at h0
    simp only [cover_collect, load64, h0, h 1 (by omega), h 2 (by omega), h 3 (by omega),
      h 4 (by omega), h 5 (by omega), h 6 (by omega), h 7 (by omega)]
  · intro cov1 s1 h
    unfold cover_mmap at h
    split at h
    · cases h
    · simp only [] at h
      split at h
      · cases h
      · cases h
        cases is_kernel_64_bit <;> simp

/-- Counterexample to C7: the buffer `covMapped` (2 MiB, `data_offset` 8) holds a
header whose eight bytes are `0xFF`; `cover_collect` stores 4294967295 in `size`, and
that many 8-byte entries from `data + data_offset` reach far past `data_end`. -/
theorem cover_collect_unbounded :
    (cover_mmap envOk true covOpened stOpened).state.1 = covMapped ∧
    (cover_collect params0 covMapped (stMapped memFull)).size = 4294967295 ∧
    ¬ ((cover_collect params0 covMapped (stMapped memFull)).data_offset +
        (cover_collect params0 covMapped (stMapped memFull)).size * KCOV_ENTRY_SIZE ≤
      (cover_collect params0 covMapped (stMapped memFull)).mmap_alloc_size) ∧
    ¬ ((cover_collect params0 covMapped (stMapped memFull)).data.addr +
        (cover_collect params0 covMapped (stMapped memFull)).data_offset +
        (cover_collect params0 covMapped (stMapped memFull)).size * KCOV_ENTRY_SIZE ≤
      (cover_collect params0 covMapped (stMapped memFull)).data_end.addr) := by
  decide

/-- C7, amended: `cover_collect` checks no bound; it stores the header count,
converted to the width of `size`, and changes no other field.  Whenever the count n
in the header satisfies `data_offset + n * w <= mmap_alloc_size` for the entry width
`w` (what the coverage device guarantees), so does the resulting `size`, and reading
`size` entries from `data + data_offset` stays within `data_end` when
`data_end = data + mmap_alloc_size`. -/
theorem cover_collect_bound (P : Params) (cov : cover_t) (s : State) (w : Nat)
    (hdev : cov.data_offset + load64 s.mem cov.data.addr * w ≤ cov.mmap_alloc_size) :
    cover_collect P cov s =
      { cov with size := load64 s.mem cov.data.addr % 2 ^ P.size_bits } ∧
    (cover_collect P cov s).data_offset + (cover_collect P cov s).size * w ≤
      (cover_collect P cov s).mmap_alloc_size ∧
    (cov.data_end = cov.data.add cov.mmap_alloc_size →
      (cover_collect P cov s).data.addr + (cover_collect P cov s).data_offset +
        (cover_collect P cov s).size * w ≤ (cover_collect P cov s).data_end.addr) := by
  have hle : load64 s.mem cov.data.addr % 2 ^ P.size_bits * w ≤
      load64 s.mem cov.data.addr * w :=
    Nat.mul_le_mul_right w (Nat.mod_le _ _)
  refine ⟨rfl, ?_, ?_⟩
  · simp only [cover_collect]
    omega
  · intro hend
    simp only [cover_collect, hend, Cap.add]
    omega

/-- Witness for C7: the buffer `covMapped` holds the count 1 after one traced
instruction; one 8-byte entry from offset 8 lies within the 2 MiB buffer. -/
theorem cover_collect_bound_witness :
    (cover_collect params0 covMapped (stMapped memOne)).size = 1 ∧
    (cover_collect params0 covMapped (stMapped memOne)).data_offset +
        (cover_collect params0 covMapped (stMapped memOne)).size * KCOV_ENTRY_SIZE ≤
      (cover_collect params0 covMapped (stMapped memOne)).mmap_alloc_size :=
  ⟨by decide,
    (cover_collect_bound params0 covMapped (stMapped memOne) KCOV_ENTRY_SIZE
      (by decide)).2.1⟩

end Cheribsd
